import Mathlib

/-!
# Verification model of `adb_automation.py` (easyfolios-downloader)

This file gives a shallow embedding of the single source file
`src/adb_automation.py` and proves/refutes the frozen claims about it.

The embedding has two layers:

* an *image-matching layer* modelling `find_element` / `find_all_elements`
  (including the OpenCV collaborators they call: `minMaxLoc`,
  `np.where`-style thresholding, and `cv2.groupRectangles`), and
* a *control-loop layer* modelling `download_all_photos_from_entry`
  (the per-entry loop plus the back-button recovery pass) and the
  `__main__` list-walking loop, as trace-producing functions over a
  scripted environment of observations.

External effects (adb screenshots, taps, swipes, `time.sleep`) are
recorded as events in a trace; the observation results that the script
reads from each fresh screenshot are supplied by a scripted environment
indexed by the number of screenshot attempts made so far, exactly
mirroring the call sites of `take_screenshot` in the source.
-/

set_option maxHeartbeats 1000000
set_option maxRecDepth 8000

namespace Adb

/-- A screen point, as the `(x, y)` integer pixel pairs the script passes
to `adb shell input tap`. -/
abbrev Pt := Nat × Nat

/-- One externally visible action of the script.  Taps are tagged with the
call site that issues them (close-photo, download, back, advance-to-entry),
since each tap in the source serves exactly one of those purposes.
`shot ok` records one `take_screenshot()` attempt and its outcome;
`slp` records a `time.sleep` with its duration in seconds. -/
inductive Event where
  | shot (ok : Bool)
  | tapClose (p : Pt)
  | tapDownload (p : Pt)
  | tapBack (p : Pt)
  | tapAdvance (p : Pt)
  | swipe (sx sy ex ey dur : Nat)
  | slp (secs : Nat)
deriving DecidableEq, Repr

/-- What one fresh screenshot yields when queried for each of the glyph
templates the script uses: whether the capture itself succeeded, then the
result of `find_element` for `closepic.png`, `add_your_comment.png`,
`back.png`, `loadmore.png`, and of `find_all_elements` for `download.png`
and `right.png` on that screenshot. -/
structure Obs where
  shotOk : Bool
  closepic : Option Pt
  addComment : Option Pt
  download : List Pt
  back : Option Pt
  loadmore : Option Pt
  rightArrows : List Pt
deriving Repr

/-- A scripted run: the observation produced by the `n`-th screenshot
attempt (counting from 0, across the whole process). -/
abbrev Env := Nat → Obs

/-- `scroll_down_one_entry(current_rightarrow_location)`:
`scroll(500, loc[1], 500, 450, 1000)`. -/
def scroll_down_one_entry (loc : Pt) : Event :=
  .swipe 500 loc.2 500 450 1000

/-- `scroll_down_one_picture(current_download_location)`:
`scroll(cur_x, cur_y, cur_x, new_y, 1000)` with `cur_x = 500`,
`cur_y = loc[1]`, `new_y = 495`. -/
def scroll_down_one_picture (loc : Pt) : Event :=
  .swipe 500 loc.2 500 495 1000

/-- How the bounded per-entry loop of `download_all_photos_from_entry`
ended: the `add_your_comment.png` break (success), falling off the
`range(100)` ceiling, or the early `break` after a failed screenshot. -/
inductive EntryStatus where
  | endReached
  | abortedCeiling
  | captureFailed
deriving DecidableEq, Repr

/-- Result of a bounded loop: the trace of events it emitted, the
screenshot-attempt counter afterwards, how it stopped, and how many loop
iterations (loop body entries) were executed. -/
structure EntryOut where
  trace : List Event
  next : Nat
  status : EntryStatus
  iters : Nat
deriving Repr

/-- The `for _ in range(100)` loop of `download_all_photos_from_entry`,
with the screenshot counter `n` and remaining iteration budget `fuel`
made explicit.  Each iteration: take a screenshot (break on failure);
if `closepic.png` matches, tap it and sleep and continue; else if
`add_your_comment.png` matches, tap every `download.png` match (suppressed
by `--dry-run`) and break; else tap the first `download.png` match
(suppressed by `--dry-run`) and scroll one picture, or, with no download
match, scroll the fallback region `scroll(500, 2200, 500, 495, 1000)`. -/
def entry_loop (dry : Bool) (env : Env) : Nat → Nat → EntryOut
  | n, 0 => ⟨[], n, .abortedCeiling, 0⟩
  | n, fuel + 1 =>
    let o := env n
    if o.shotOk = false then
      ⟨[.shot false], n + 1, .captureFailed, 1⟩
    else
      match o.closepic with
      | some p =>
        let r := entry_loop dry env (n + 1) fuel
        ⟨.shot true :: .tapClose p :: .slp 1 :: r.trace, r.next, r.status, r.iters + 1⟩
      | none =>
        match o.addComment with
        | some _ =>
          let dl := if dry then [] else
            o.download.flatMap (fun c => [.tapDownload c, .slp 1])
          ⟨.shot true :: dl, n + 1, .endReached, 1⟩
        | none =>
          match o.download with
          | [] =>
            let r := entry_loop dry env (n + 1) fuel
            ⟨.shot true :: .swipe 500 2200 500 495 1000 :: r.trace,
              r.next, r.status, r.iters + 1⟩
          | c :: _ =>
            let act := if dry then [] else [.tapDownload c, .slp 1]
            let r := entry_loop dry env (n + 1) fuel
            ⟨.shot true :: (act ++ scroll_down_one_picture c :: r.trace),
              r.next, r.status, r.iters + 1⟩

/-- The `for _ in range(5)` recovery pass at the end of
`download_all_photos_from_entry`: take a screenshot (break on failure),
sleep, look for `back.png`; if found, tap it, sleep, and break. -/
def recovery_loop (env : Env) : Nat → Nat → List Event × Nat
  | n, 0 => ([], n)
  | n, fuel + 1 =>
    let o := env n
    if o.shotOk = false then
      ([.shot false], n + 1)
    else
      match o.back with
      | some p => ([.shot true, .slp 1, .tapBack p, .slp 1], n + 1)
      | none =>
        let r := recovery_loop env (n + 1) fuel
        (.shot true :: .slp 1 :: r.1, r.2)

/-- `download_all_photos_from_entry()`: the bounded per-entry loop with a
budget of 100 iterations, followed by the 5-attempt back-button recovery
pass. -/
def download_all_photos_from_entry (dry : Bool) (env : Env) (n : Nat) : EntryOut :=
  let e := entry_loop dry env n 100
  let r := recovery_loop env e.next 5
  ⟨e.trace ++ r.1, r.2, e.status, e.iters⟩

/-- How the `__main__` list-walking loop ended: `loadmore.png` seen
(end of list), no `right.png` arrows found (no-progress break), or the
`range(10000)` ceiling exhausted. -/
inductive WalkStatus where
  | endOfList
  | noProgress
  | ceiling
deriving DecidableEq, Repr

/-- Result of the list-walking loop (same shape as `EntryOut`). -/
structure WalkOut where
  trace : List Event
  next : Nat
  status : WalkStatus
  iters : Nat
deriving Repr

/-- The `for _ in range(10000)` loop of `__main__`.  Each iteration:
take a screenshot, and if it succeeded check `loadmore.png` (break if
present); then take a second screenshot, and if it succeeded find all
`right.png` arrows: tap the first, sleep, run
`download_all_photos_from_entry`, and scroll down one entry, or break
with "No right arrows found" if there are none.  A failed screenshot
skips the corresponding query and the loop continues. -/
def main_loop (dry : Bool) (env : Env) : Nat → Nat → WalkOut
  | n, 0 => ⟨[], n, .ceiling, 0⟩
  | n, fuel + 1 =>
    let o := env n
    if o.shotOk && o.loadmore.isSome then
      ⟨[.shot true], n + 1, .endOfList, 1⟩
    else
      let seg1 : List Event := [.shot o.shotOk]
      let o2 := env (n + 1)
      if o2.shotOk = false then
        let r := main_loop dry env (n + 2) fuel
        ⟨seg1 ++ .shot false :: r.trace, r.next, r.status, r.iters + 1⟩
      else
        match o2.rightArrows with
        | [] => ⟨seg1 ++ [.shot true], n + 2, .noProgress, 1⟩
        | c :: _ =>
          let d := download_all_photos_from_entry dry env (n + 2)
          let r := main_loop dry env d.next fuel
          ⟨seg1 ++ .shot true :: .tapAdvance c :: .slp 1 ::
              (d.trace ++ scroll_down_one_entry c :: r.trace),
            r.next, r.status, r.iters + 1⟩

/-- The whole scripted run of `__main__`: the list-walking loop from a
fresh screenshot counter with its 10000-iteration budget. -/
def main_run (dry : Bool) (env : Env) : WalkOut :=
  main_loop dry env 0 10000

/-- Is this event a gesture sent to the device (a tap or a swipe), as
opposed to a screenshot or a sleep? -/
def Event.isGesture : Event → Bool
  | .tapClose _ => true
  | .tapDownload _ => true
  | .tapBack _ => true
  | .tapAdvance _ => true
  | .swipe _ _ _ _ _ => true
  | _ => false

/-- Is this event a tap whose purpose is downloading? -/
def Event.isDownloadTap : Event → Bool
  | .tapDownload _ => true
  | _ => false

/-- Is this event a (successful or failed) screenshot attempt? -/
def Event.isShot : Event → Bool
  | .shot _ => true
  | _ => false

/-- Is this event a back-button tap? -/
def Event.isBackTap : Event → Bool
  | .tapBack _ => true
  | _ => false

/-- Is this event a sleep? -/
def Event.isSlp : Event → Bool
  | .slp _ => true
  | _ => false

/-- Is this event a failed screenshot attempt? -/
def Event.isFailedShot : Event → Bool
  | .shot false => true
  | _ => false

/-- A navigation gesture: a gesture that is not a download tap. -/
def Event.isNavGesture (e : Event) : Bool :=
  e.isGesture && !e.isDownloadTap

/-!
## Image-matching layer

Models `find_element` and `find_all_elements` together with the OpenCV
collaborators they invoke.  `cv2.matchTemplate` is an external numeric
routine; it is modelled as an oracle `mt` mapping the two loaded images to
the score matrix `res` (of shape `(H - h + 1) × (W - w + 1)` for a
`H × W` screenshot and `h × w` template), indexed as `res y x` and valued
in ℚ (the `TM_CCOEFF_NORMED` confidence).  `cv2.minMaxLoc`,
`np.where`-thresholding and `cv2.groupRectangles` are modelled from their
documented semantics (row-major scan keeping the first strict maximum;
row-major collection of above-threshold indices; single-linkage clustering
of similar rectangles, averaging each cluster, discarding clusters with at
most `groupThreshold` members, then discarding representatives nested
inside another expanded representative).  Floating-point rounding in the
averaging is modelled as round-half-up integer division. -/

/-- A raster image as loaded by `cv2.imread`: its `shape[:2] = (h, w)`
and its pixel contents (three colour channels per pixel). -/
structure Image where
  h : Nat
  w : Nat
  pix : Nat → Nat → ℚ × ℚ × ℚ

/-- The state of a path on disk as the script sees it:
missing (`os.path.exists` false), present but not loadable as an image
(`cv2.imread` returns `None`), or a loadable image. -/
inductive FileState where
  | absent
  | unreadable
  | image (img : Image)

/-- The working directory: what each filename resolves to. -/
abbrev Store := String → FileState

/-- The `cv2.matchTemplate` oracle: screenshot, template, then the score
matrix indexed `res y x`. -/
abbrev MatchFn := Image → Image → Nat → Nat → ℚ

/-- All positions of the score matrix in row-major order, as `(x, y)`
pairs (the order in which `cv2.minMaxLoc` scans). -/
def gridPts (rh rw : Nat) : List Pt :=
  (List.range rh).flatMap (fun y => (List.range rw).map (fun x => (x, y)))

/-- `cv2.minMaxLoc`, maximum part: scan the matrix row-major keeping the
first location whose value strictly exceeds the best so far; returns
`(max_val, max_loc)`. -/
def maxLoc (res : Nat → Nat → ℚ) (rh rw : Nat) : ℚ × Pt :=
  (gridPts rh rw).foldl
    (fun acc p => if acc.1 < res p.2 p.1 then (res p.2 p.1, p) else acc)
    (res 0 0, (0, 0))

/-- `find_element(template_path, screen_path, threshold)`: missing or
unloadable files yield `None`; otherwise run template matching, take the
global maximum, and return the centre `(max_loc[0] + w//2, max_loc[1] + h//2)`
of the best match if `max_val >= threshold`, else `None`. -/
def find_element (mt : MatchFn) (store : Store)
    (template_path screen_path : String) (threshold : ℚ) : Option Pt :=
  match store template_path, store screen_path with
  | .absent, _ => none
  | _, .absent => none
  | .image tmpl, .image img =>
    let h := tmpl.h
    let w := tmpl.w
    let res := mt img tmpl
    let m := maxLoc res (img.h - h + 1) (img.w - w + 1)
    if threshold ≤ m.1 then some (m.2.1 + w / 2, m.2.2 + h / 2) else none
  | _, _ => none

/-- `np.where(res >= threshold)` followed by `zip(*loc[::-1])`: the
`(x, y)` positions scoring at least `threshold`, in row-major order. -/
def wherePoints (res : Nat → Nat → ℚ) (rh rw : Nat) (threshold : ℚ) : List Pt :=
  (List.range rh).flatMap (fun y =>
    (List.range rw).filterMap (fun x =>
      if threshold ≤ res y x then some (x, y) else none))

/-- A candidate rectangle `[x, y, w, h]` as built for `cv2.groupRectangles`. -/
structure Rect where
  x : Nat
  y : Nat
  w : Nat
  h : Nat
deriving DecidableEq, Repr

instance : Inhabited Rect := ⟨⟨0, 0, 0, 0⟩⟩

/-- Distance between two naturals. -/
def natDist (a b : Nat) : Nat := max a b - min a b

/-- OpenCV's `SimilarRects(eps)` predicate: the two rectangles' sides are
within `delta = eps * (min(w1,w2) + min(h1,h2)) / 2` of each other.
The tolerance `eps` is passed as the exact fraction `en / ed`, and each
comparison `d ≤ delta` is stated with cleared denominators as
`2 * ed * d ≤ en * (min w1 w2 + min h1 h2)`, which is the same rational
inequality evaluated in ℕ. -/
def simRects (en ed : Nat) (r1 r2 : Rect) : Bool :=
  let s := en * (min r1.w r2.w + min r1.h r2.h)
  decide (2 * ed * natDist r1.x r2.x ≤ s) &&
  decide (2 * ed * natDist r1.y r2.y ≤ s) &&
  decide (2 * ed * natDist (r1.x + r1.w) (r2.x + r2.w) ≤ s) &&
  decide (2 * ed * natDist (r1.y + r1.h) (r2.y + r2.h) ≤ s)

/-- One step of single-linkage clustering: merge the new rectangle with
every existing cluster it is similar to (OpenCV's `partition` computes
the connected components of the similarity relation). -/
def addRect (sim : Rect → Rect → Bool) (cs : List (List Rect)) (r : Rect) :
    List (List Rect) :=
  (r :: (cs.filter (fun c => c.any (sim r))).flatten) ::
    cs.filter (fun c => !c.any (sim r))

/-- Connected components of the similarity relation over the rectangle
list (the classes computed by OpenCV's `partition`). -/
def clusterRects (sim : Rect → Rect → Bool) (rs : List Rect) : List (List Rect) :=
  rs.foldl (addRect sim) []

/-- Round-half-up division: models `saturate_cast<int>(sum * (1.0/n))`,
the nearest integer to `sum / n`. -/
def rndDiv (a n : Nat) : Nat := (2 * a + n) / (2 * n)

/-- The representative of a cluster: the componentwise rounded average of
its rectangles. -/
def avgRect (c : List Rect) : Rect :=
  let n := c.length
  ⟨rndDiv (c.foldl (fun s r => s + r.x) 0) n,
   rndDiv (c.foldl (fun s r => s + r.y) 0) n,
   rndDiv (c.foldl (fun s r => s + r.w) 0) n,
   rndDiv (c.foldl (fun s r => s + r.h) 0) n⟩

/-- `cvRound(en * a / ed)` for naturals: nearest integer to the exact
fraction `en * a / ed` (halves rounded up; for `eps = 1/5` and integer
`a` the fraction never lands exactly on a half, so this is exact). -/
def cvRoundFrac (en ed a : Nat) : Nat := (2 * en * a + ed) / (2 * ed)

/-- The nested-rectangle test of `cv2.groupRectangles`' final filter:
`r1` lies inside `r2` expanded by `dx = cvRound(eps * r2.width)`,
`dy = cvRound(eps * r2.height)`, with `eps = en / ed`. -/
def insideExp (en ed : Nat) (r1 r2 : Rect) : Bool :=
  let dx := cvRoundFrac en ed r2.w
  let dy := cvRoundFrac en ed r2.h
  decide (r2.x ≤ r1.x + dx) &&
  decide (r2.y ≤ r1.y + dy) &&
  decide (r1.x + r1.w ≤ r2.x + r2.w + dx) &&
  decide (r1.y + r1.h ≤ r2.y + r2.h + dy)

/-- The final filter of `cv2.groupRectangles`, deciding whether the
`ir.1`-th representative rectangle `ir.2.1` (of weight `ir.2.2`) is kept:
its cluster must exceed `groupThreshold`, and it must not be nested (up
to the `eps` margin) inside any other kept-weight representative with the
weight condition `n2 > max(3, n1) or n1 < 3`. -/
def keepRep (gthr en ed : Nat) (reps : List (Rect × Nat))
    (ir : Nat × Rect × Nat) : Bool :=
  decide (gthr < ir.2.2) &&
  reps.enum.all (fun jr =>
    !(decide (jr.1 ≠ ir.1) && decide (gthr < jr.2.2) &&
      insideExp en ed ir.2.1 jr.2.1 &&
      (decide (max 3 ir.2.2 < jr.2.2) || decide (ir.2.2 < 3))))

/-- `cv2.groupRectangles(rects, groupThreshold, eps)` with `eps = en / ed`:
cluster similar rectangles, average each cluster, drop clusters with at
most `groupThreshold` members, and drop a representative nested (up to
the `eps` margin) inside another surviving representative when the weight
condition `n2 > max(3, n1) or n1 < 3` holds. -/
def groupRectangles (gthr en ed : Nat) (rs : List Rect) : List Rect :=
  let reps := (clusterRects (simRects en ed) rs).map (fun c => (avgRect c, c.length))
  (reps.enum.filter (keepRep gthr en ed reps)).map (fun ir => ir.2.1)

/-- `find_all_elements(template_path, screen_path, threshold)`: missing or
unloadable files yield `[]`; otherwise collect every above-threshold
position, turn each into the rectangle `[x, y, w, h]`, run
`cv2.groupRectangles(rects, 1, 0.2)`, and return the centres
`(x + w//2, y + h//2)` of the surviving rectangles. -/
def find_all_elements (mt : MatchFn) (store : Store)
    (template_path screen_path : String) (threshold : ℚ) : List Pt :=
  match store template_path, store screen_path with
  | .absent, _ => []
  | _, .absent => []
  | .image tmpl, .image img =>
    let h := tmpl.h
    let w := tmpl.w
    let res := mt img tmpl
    let pts := wherePoints res (img.h - h + 1) (img.w - w + 1) threshold
    if pts = [] then []
    else
      (groupRectangles 1 1 5 (pts.map (fun p => Rect.mk p.1 p.2 w h))).map
        (fun r => (r.x + r.w / 2, r.y + r.h / 2))
  | _, _ => []

/-!
## Concrete scripted inputs

Fixed environments and stores used to instantiate the claims at concrete
inputs. -/

/-- A run in which every screenshot succeeds but no template ever
matches anything. -/
def env_all_none : Env := fun _ => ⟨true, none, none, [], none, none, []⟩

/-- A run in which every screenshot attempt fails. -/
def env_all_fail : Env := fun _ => ⟨false, none, none, [], none, none, []⟩

/-- A working directory in which every template file is missing. -/
def missing_store : Store := fun _ => .absent

/-- A degenerate matching oracle (never used on a loadable pair in the
runs that use it). -/
def mtZero : MatchFn := fun _ _ _ _ => 0

/-- The observation each screenshot yields when every template file is
missing from the working directory: exactly what the source's
`find_element` / `find_all_elements` calls return in that situation. -/
def env_missing_templates : Env := fun _ =>
  ⟨true,
   find_element mtZero missing_store "closepic.png" "screen.png" (mkRat 4 5),
   find_element mtZero missing_store "add_your_comment.png" "screen.png" (mkRat 4 5),
   find_all_elements mtZero missing_store "download.png" "screen.png" (mkRat 4 5),
   find_element mtZero missing_store "back.png" "screen.png" (mkRat 4 5),
   find_element mtZero missing_store "loadmore.png" "screen.png" (mkRat 4 5),
   find_all_elements mtZero missing_store "right.png" "screen.png" (mkRat 4 5)⟩

/-- A scripted entry view at its end: no open photo, the
`add_your_comment.png` glyph visible, and two download buttons. -/
def env_entry_end : Env := fun _ =>
  ⟨true, none, some (540, 2000), [(120, 300), (120, 900)], none, none, []⟩

/-- A scripted entry view mid-scroll: no open photo, no end-of-entry
glyph, and two download buttons visible. -/
def env_mid_entry : Env := fun _ =>
  ⟨true, none, none, [(120, 300), (120, 900)], none, none, []⟩

/-- A scripted recovery view where the back button is visible at once. -/
def env_back_now : Env := fun _ =>
  ⟨true, none, none, [], some (60, 160), none, []⟩

/-- A 10 × 10 glyph template image. -/
def tmpl10 : Image := ⟨10, 10, fun _ _ => (0, 0, 0)⟩

/-- A 10 × 30 screenshot; against `tmpl10` the score grid is 1 × 21. -/
def screen_wide : Image := ⟨10, 30, fun _ _ => (0, 0, 0)⟩

/-- A 10 × 10 screenshot; against `tmpl10` the score grid is 1 × 1. -/
def screen_small : Image := ⟨10, 10, fun _ _ => (0, 0, 0)⟩

/-- A working directory holding the demo template and two screenshots. -/
def store_demo : Store := fun s =>
  if s = "t.png" then .image tmpl10
  else if s = "s.png" then .image screen_wide
  else if s = "b.png" then .image screen_small
  else .absent

/-- A working directory agreeing with `store_demo` on every image file but
differing on an unrelated path. -/
def store_demo2 : Store := fun s =>
  if s = "t.png" then .image tmpl10
  else if s = "s.png" then .image screen_wide
  else if s = "b.png" then .image screen_small
  else .unreadable

/-- A matching oracle with a single above-threshold score, a perfect hit
at position `(0, 0)`. -/
def mt_single : MatchFn := fun _ _ y x => if y = 0 && x = 0 then 1 else 0

/-- A matching oracle for a frame holding two well-separated template
instances at `x = 0` and `x = 19` of row `0`, each producing two adjacent
above-threshold candidates. -/
def mt_pair : MatchFn := fun _ _ y x =>
  if (y = 0 && x = 0) || (y = 0 && x = 1) || (y = 0 && x = 19) || (y = 0 && x = 20)
  then 1 else 0

/-!
## Helper lemmas
-/

/-- An all-no-match observation record. -/
def Obs.allNone (o : Obs) : Prop :=
  o.shotOk = true ∧ o.closepic = none ∧ o.addComment = none ∧
    o.download = [] ∧ o.back = none ∧ o.loadmore = none ∧ o.rightArrows = []

theorem entry_loop_all_none (dry : Bool) (env : Env)
    (h : ∀ m, (env m).allNone) : ∀ fuel n,
    entry_loop dry env n fuel =
      ⟨(List.replicate fuel [Event.shot true, Event.swipe 500 2200 500 495 1000]).flatten,
        n + fuel, .abortedCeiling, fuel⟩ := by
  intro fuel
  induction fuel with
  | zero => intro n; simp [entry_loop]
  | succ f ih =>
    intro n
    obtain ⟨h1, h2, h3, h4, h5, h6, h7⟩ := h n
    simp only [entry_loop, h1, h2, h3, h4, ih (n + 1)]
    simp [List.replicate_succ]
    omega

theorem main_loop_all_none (dry : Bool) (env : Env)
    (h : ∀ m, (env m).allNone) (fuel n : Nat) :
    main_loop dry env n (fuel + 1) =
      ⟨[Event.shot true, Event.shot true], n + 2, .noProgress, 1⟩ := by
  obtain ⟨h1, _, _, _, _, h6, _⟩ := h n
  obtain ⟨g1, _, _, _, _, _, g7⟩ := h (n + 1)
  simp [main_loop, h1, h6, g1, g7]

theorem recovery_loop_spec (env : Env) : ∀ fuel n,
    (recovery_loop env n fuel).1.countP Event.isBackTap ≤ 1 ∧
    (recovery_loop env n fuel).1.countP Event.isShot ≤ fuel ∧
    (((recovery_loop env n fuel).1.dropWhile (fun e => !e.isBackTap)).drop 1).all
      Event.isSlp = true ∧
    (((recovery_loop env n fuel).1.dropWhile (fun e => !e.isFailedShot)).drop 1)
      = [] := by
  intro fuel
  induction fuel with
  | zero => intro n; simp [recovery_loop]
  | succ f ih =>
    intro n
    cases hs : (env n).shotOk with
    | false => simp [recovery_loop, hs, List.countP_cons, Event.isBackTap,
        Event.isShot, List.dropWhile, Event.isSlp, Event.isFailedShot]
    | true =>
      cases hb : (env n).back with
      | some p => simp [recovery_loop, hs, hb, List.countP_cons, Event.isBackTap,
          Event.isShot, List.dropWhile, Event.isSlp, Event.isFailedShot]
      | none =>
        obtain ⟨ih1, ih2, ih3, ih4⟩ := ih (n + 1)
        simp only [recovery_loop, hs, hb, Bool.false_eq_true, if_false,
          List.countP_cons, List.dropWhile]
        refine ⟨?_, ?_, ?_, ?_⟩
        · simpa [Event.isBackTap] using ih1
        · simpa [Event.isShot] using ih2
        · simpa [Event.isBackTap, Event.isSlp] using ih3
        · simpa using ih4

theorem filter_gesture_of_no_download (t : List Event)
    (h : t.countP Event.isDownloadTap = 0) :
    t.filter Event.isGesture = t.filter Event.isNavGesture :=
  List.filter_congr fun e he => by
    have hd : Event.isDownloadTap e = false := by
      rw [List.countP_eq_zero] at h
      simpa using h e he
    simp [Event.isNavGesture, hd]

theorem flatMap_download_filter_nav (l : List Pt) :
    (l.flatMap fun c => [Event.tapDownload c, Event.slp 1]).filter
      Event.isNavGesture = [] := by
  induction l with
  | nil => simp
  | cons c l ih => simp [ih, Event.isNavGesture, Event.isGesture, Event.isDownloadTap]

theorem recovery_no_download (env : Env) : ∀ fuel n,
    (recovery_loop env n fuel).1.countP Event.isDownloadTap = 0 := by
  intro fuel
  induction fuel with
  | zero => intro n; simp [recovery_loop]
  | succ f ih =>
    intro n
    cases hs : (env n).shotOk with
    | false => simp [recovery_loop, hs, Event.isDownloadTap]
    | true =>
      cases hb : (env n).back with
      | some p => simp [recovery_loop, hs, hb, Event.isDownloadTap]
      | none => simp [recovery_loop, hs, hb, Event.isDownloadTap, ih (n + 1)]

theorem entry_loop_dry_wet (env : Env) : ∀ fuel n,
    (entry_loop true env n fuel).next = (entry_loop false env n fuel).next ∧
    (entry_loop true env n fuel).status = (entry_loop false env n fuel).status ∧
    (entry_loop true env n fuel).trace.countP Event.isDownloadTap = 0 ∧
    (entry_loop true env n fuel).trace.filter Event.isGesture
      = (entry_loop false env n fuel).trace.filter Event.isNavGesture := by
  intro fuel
  induction fuel with
  | zero => intro n; simp [entry_loop]
  | succ f ih =>
    intro n
    obtain ⟨ih1, ih2, ih3, ih4⟩ := ih (n + 1)
    cases hs : (env n).shotOk with
    | false =>
      simp [entry_loop, hs, Event.isDownloadTap, Event.isGesture,
        Event.isNavGesture]
    | true =>
      cases hc : (env n).closepic with
      | some p =>
        simp [entry_loop, hs, hc, List.countP_cons, Event.isDownloadTap,
          Event.isGesture, Event.isNavGesture, ih1, ih2, ih3, ih4]
      | none =>
        cases ha : (env n).addComment with
        | some p =>
          simp [entry_loop, hs, hc, ha, Event.isDownloadTap, Event.isGesture,
            Event.isNavGesture, flatMap_download_filter_nav]
        | none =>
          cases hd : (env n).download with
          | nil =>
            simp [entry_loop, hs, hc, ha, hd, List.countP_cons,
              Event.isDownloadTap, Event.isGesture, Event.isNavGesture,
              ih1, ih2, ih3, ih4]
          | cons c cs =>
            simp [entry_loop, hs, hc, ha, hd, scroll_down_one_picture,
              List.countP_cons, Event.isDownloadTap, Event.isGesture,
              Event.isNavGesture, ih1, ih2, ih3, ih4]

theorem download_all_dry_wet (env : Env) (n : Nat) :
    (download_all_photos_from_entry true env n).next
      = (download_all_photos_from_entry false env n).next ∧
    (download_all_photos_from_entry true env n).trace.countP
      Event.isDownloadTap = 0 ∧
    (download_all_photos_from_entry true env n).trace.filter Event.isGesture
      = (download_all_photos_from_entry false env n).trace.filter
          Event.isNavGesture := by
  obtain ⟨h1, _, h3, h4⟩ := entry_loop_dry_wet env 100 n
  have hr0 := recovery_no_download env 5 (entry_loop false env n 100).next
  refine ⟨?_, ?_, ?_⟩
  · simp [download_all_photos_from_entry, h1]
  · simp [download_all_photos_from_entry, List.countP_append, h1, h3, hr0]
  · simp only [download_all_photos_from_entry, List.filter_append, h1]
    rw [h4, filter_gesture_of_no_download _ hr0]

theorem main_loop_dry_wet (env : Env) : ∀ fuel n,
    (main_loop true env n fuel).next = (main_loop false env n fuel).next ∧
    (main_loop true env n fuel).trace.countP Event.isDownloadTap = 0 ∧
    (main_loop true env n fuel).trace.filter Event.isGesture
      = (main_loop false env n fuel).trace.filter Event.isNavGesture := by
  intro fuel
  induction fuel with
  | zero => intro n; simp [main_loop]
  | succ f ih =>
    intro n
    by_cases hl : ((env n).shotOk && (env n).loadmore.isSome) = true
    · simp [main_loop, hl, Event.isDownloadTap, Event.isGesture, Event.isNavGesture]
    · cases hs2 : (env (n + 1)).shotOk with
      | false =>
        obtain ⟨ih1, ih2, ih3⟩ := ih (n + 2)
        simp [main_loop, hl, hs2, List.countP_cons, Event.isDownloadTap,
          Event.isGesture, Event.isNavGesture, ih1, ih2, ih3]
      | true =>
        cases hr : (env (n + 1)).rightArrows with
        | nil =>
          simp [main_loop, hl, hs2, hr, Event.isDownloadTap, Event.isGesture,
            Event.isNavGesture]
        | cons c cs =>
          obtain ⟨d1, d2, d3⟩ := download_all_dry_wet env (n + 2)
          obtain ⟨ih1, ih2, ih3⟩ :=
            ih (download_all_photos_from_entry false env (n + 2)).next
          simp [main_loop, hl, hs2, hr, scroll_down_one_entry,
            List.countP_cons, List.countP_append, List.filter_append,
            Event.isDownloadTap, Event.isGesture, Event.isNavGesture,
            d1, d2, d3, ih1, ih2, ih3]


theorem natDist_eq (a b : Nat) : natDist a b = a - b + (b - a) := by
  unfold natDist; omega

theorem rndDiv_bounds (s n lo hi : Nat) (hn : 0 < n)
    (h1 : n * lo ≤ s) (h2 : s ≤ n * hi) :
    lo ≤ rndDiv s n ∧ rndDiv s n ≤ hi := by
  have e1 : lo * (2 * n) = 2 * (n * lo) := by ring
  have e2 : (hi + 1) * (2 * n) = 2 * (n * hi) + 2 * n := by ring
  unfold rndDiv
  constructor
  · exact (Nat.le_div_iff_mul_le (by omega)).mpr (by omega)
  · have h3 : 2 * s + n < (hi + 1) * (2 * n) := by omega
    have h4 := (Nat.div_lt_iff_lt_mul (show 0 < 2 * n by omega)).mpr h3
    omega

theorem foldl_add_le (val : Rect → Nat) (lo hi : Nat) :
    ∀ (c : List Rect) (s : Nat), (∀ r ∈ c, lo ≤ val r ∧ val r ≤ hi) →
    s + c.length * lo ≤ c.foldl (fun t r => t + val r) s ∧
    c.foldl (fun t r => t + val r) s ≤ s + c.length * hi := by
  intro c
  induction c with
  | nil => intro s _; simp
  | cons r c ih =>
    intro s hb
    obtain ⟨h1, h2⟩ := hb r (List.mem_cons_self _ _)
    obtain ⟨i1, i2⟩ := ih (s + val r) (fun q hq => hb q (List.mem_cons_of_mem _ hq))
    simp only [List.foldl_cons, List.length_cons, Nat.succ_mul]
    omega

theorem headI_mem_of_ne_nil : ∀ {l : List Rect}, l ≠ [] → l.headI ∈ l
  | [], h => absurd rfl h
  | a :: t, _ => List.mem_cons_self a t

theorem clusterRects_foldl_spec (sim : Rect → Rect → Bool) (g : Rect → Nat) :
    ∀ (l : List Rect) (cs : List (List Rect)),
    (∀ r1 ∈ cs.flatten ++ l, ∀ r2 ∈ cs.flatten ++ l,
      (sim r1 r2 = true ↔ g r1 = g r2)) →
    (∀ c ∈ cs, c ≠ []) →
    (∀ c ∈ cs, ∀ r1 ∈ c, ∀ r2 ∈ c, g r1 = g r2) →
    cs.Pairwise (fun c d => ∀ r1 ∈ c, ∀ r2 ∈ d, g r1 ≠ g r2) →
    (∀ c ∈ l.foldl (addRect sim) cs, c ≠ []) ∧
    (∀ c ∈ l.foldl (addRect sim) cs, ∀ r1 ∈ c, ∀ r2 ∈ c, g r1 = g r2) ∧
    (l.foldl (addRect sim) cs).Pairwise
      (fun c d => ∀ r1 ∈ c, ∀ r2 ∈ d, g r1 ≠ g r2) ∧
    (l.foldl (addRect sim) cs).flatten.Perm (cs.flatten ++ l) := by
  intro l
  induction l with
  | nil =>
    intro cs hiff h1 h2 h3
    simpa using ⟨h1, h2, h3⟩
  | cons r l ih =>
    intro cs hiff h1 h2 h3
    -- memberships in the new accumulator
    have hperm_sets : (addRect sim cs r).flatten.Perm (r :: cs.flatten) := by
      have hsplit : (cs.filter (fun c => c.any (sim r)) ++
          cs.filter (fun c => !c.any (sim r))).Perm cs :=
        List.filter_append_perm _ cs
      have : ((cs.filter (fun c => c.any (sim r))).flatten ++
          (cs.filter (fun c => !c.any (sim r))).flatten).Perm cs.flatten := by
        rw [← List.flatten_append]
        exact hsplit.flatten
      simpa [addRect] using List.Perm.cons r this
    -- elements of addRect are elements of r :: cs.flatten
    have hmem_new : ∀ x ∈ (addRect sim cs r).flatten, x ∈ r :: cs.flatten :=
      fun x hx => hperm_sets.mem_iff.mp hx
    -- hypothesis transfer
    have hiff' : ∀ r1 ∈ (addRect sim cs r).flatten ++ l,
        ∀ r2 ∈ (addRect sim cs r).flatten ++ l, (sim r1 r2 = true ↔ g r1 = g r2) := by
      intro r1 hr1 r2 hr2
      apply hiff
      · rcases List.mem_append.mp hr1 with h | h
        · rcases List.mem_cons.mp (hmem_new _ h) with rfl | h
          · exact List.mem_append.mpr (Or.inr (List.mem_cons_self _ _))
          · exact List.mem_append.mpr (Or.inl h)
        · exact List.mem_append.mpr (Or.inr (List.mem_cons_of_mem _ h))
      · rcases List.mem_append.mp hr2 with h | h
        · rcases List.mem_cons.mp (hmem_new _ h) with rfl | h
          · exact List.mem_append.mpr (Or.inr (List.mem_cons_self _ _))
          · exact List.mem_append.mpr (Or.inl h)
        · exact List.mem_append.mpr (Or.inr (List.mem_cons_of_mem _ h))
    have hriff : ∀ r2 ∈ cs.flatten, (sim r r2 = true ↔ g r = g r2) := by
      intro r2 h2'
      exact hiff r (List.mem_append.mpr (Or.inr (List.mem_cons_self _ _)))
        r2 (List.mem_append.mpr (Or.inl h2'))
    -- invariants for the new accumulator
    have h1' : ∀ c ∈ addRect sim cs r, c ≠ [] := by
      intro c hc
      rcases List.mem_cons.mp hc with rfl | hc
      · exact List.cons_ne_nil _ _
      · exact h1 c (List.mem_of_mem_filter hc)
    have hconn_id : ∀ x ∈ (cs.filter (fun c => c.any (sim r))).flatten, g x = g r := by
      intro x hx
      obtain ⟨c, hc, hxc⟩ := List.mem_flatten.mp hx
      have hcmem := List.mem_of_mem_filter hc
      have hany := List.of_mem_filter hc
      obtain ⟨y, hy, hsy⟩ := List.any_eq_true.mp hany
      have hgy : g r = g y := (hriff y (List.mem_flatten.mpr ⟨c, hcmem, hy⟩)).mp hsy
      have := h2 c hcmem x hxc y hy
      omega
    have h2' : ∀ c ∈ addRect sim cs r, ∀ r1 ∈ c, ∀ r2 ∈ c, g r1 = g r2 := by
      intro c hc
      rcases List.mem_cons.mp hc with rfl | hc
      · intro r1 hr1 r2 hr2
        rcases List.mem_cons.mp hr1 with rfl | hr1 <;>
          rcases List.mem_cons.mp hr2 with rfl | hr2
        · rfl
        · exact (hconn_id r2 hr2).symm
        · exact hconn_id r1 hr1
        · rw [hconn_id r1 hr1, hconn_id r2 hr2]
      · exact h2 c (List.mem_of_mem_filter hc)
    have hrest_ne : ∀ d ∈ cs.filter (fun c => !c.any (sim r)), ∀ x ∈ d, g x ≠ g r := by
      intro d hd x hx
      have hnone := List.of_mem_filter hd
      have hdm := List.mem_of_mem_filter hd
      simp only [Bool.not_eq_true', List.any_eq_false] at hnone
      intro hgx
      have : sim r x = true :=
        (hriff x (List.mem_flatten.mpr ⟨d, hdm, hx⟩)).mpr hgx.symm
      exact hnone x hx this
    have h3' : (addRect sim cs r).Pairwise
        (fun c d => ∀ r1 ∈ c, ∀ r2 ∈ d, g r1 ≠ g r2) := by
      constructor
      · intro d hd r1 hr1 r2 hr2
        have hg1 : g r1 = g r := by
          rcases List.mem_cons.mp hr1 with rfl | hr1
          · rfl
          · exact hconn_id r1 hr1
        have := hrest_ne d hd r2 hr2
        omega
      · exact (h3.sublist (List.filter_sublist cs))
    obtain ⟨j1, j2, j3, j4⟩ := ih (addRect sim cs r) hiff' h1' h2' h3'
    refine ⟨j1, j2, j3, ?_⟩
    refine j4.trans ?_
    refine (hperm_sets.append_right l).trans ?_
    simpa using (List.perm_middle).symm

theorem countP_flatten_single (g : Rect → Nat) (i : Nat) :
    ∀ (cs : List (List Rect)) (c : List Rect),
    c ∈ cs →
    cs.Pairwise (fun c d => ∀ r1 ∈ c, ∀ r2 ∈ d, g r1 ≠ g r2) →
    (∀ r ∈ c, g r = i) → c ≠ [] →
    cs.flatten.countP (fun r => decide (g r = i)) = c.length := by
  intro cs
  induction cs with
  | nil => intro c hc; simp at hc
  | cons d cs ih =>
    intro c hc hpw hci hcne
    have hhd : c.headI ∈ c := by
      cases c with
      | nil => exact absurd rfl hcne
      | cons a t => exact List.mem_cons_self a t
    have hgc : g c.headI = i := hci _ hhd
    rw [List.flatten_cons, List.countP_append]
    rcases List.mem_cons.mp hc with rfl | hc
    · have hd0 : cs.flatten.countP (fun r => decide (g r = i)) = 0 := by
        apply List.countP_eq_zero.mpr
        intro r hr
        obtain ⟨e, he, hre⟩ := List.mem_flatten.mp hr
        have := (List.pairwise_cons.mp hpw).1 e he c.headI hhd r hre
        simp only [decide_eq_true_eq]
        omega
      have hdl : c.countP (fun r => decide (g r = i)) = c.length :=
        List.countP_eq_length.mpr (fun r hr => by
          simp only [decide_eq_true_eq]; exact hci r hr)
      omega
    · have hd0 : d.countP (fun r => decide (g r = i)) = 0 := by
        apply List.countP_eq_zero.mpr
        intro r hr
        have := (List.pairwise_cons.mp hpw).1 c hc r hr c.headI hhd
        simp only [decide_eq_true_eq]
        omega
      have := ih c hc (List.pairwise_cons.mp hpw).2 hci hcne
      omega

theorem clusterRects_spec (sim : Rect → Rect → Bool) (g : Rect → Nat)
    (rs : List Rect)
    (hiff : ∀ r1 ∈ rs, ∀ r2 ∈ rs, (sim r1 r2 = true ↔ g r1 = g r2)) :
    (∀ c ∈ clusterRects sim rs, c ≠ []) ∧
    (∀ c ∈ clusterRects sim rs, ∀ r1 ∈ c, ∀ r2 ∈ c, g r1 = g r2) ∧
    (clusterRects sim rs).Pairwise
      (fun c d => ∀ r1 ∈ c, ∀ r2 ∈ d, g r1 ≠ g r2) ∧
    (clusterRects sim rs).flatten.Perm rs := by
  have h := clusterRects_foldl_spec sim g rs []
    (by simpa using hiff) (by simp) (by simp) (by simp)
  simpa [clusterRects] using h

theorem clusterRects_count (sim : Rect → Rect → Bool) (g : Rect → Nat)
    (rs : List Rect) (k : Nat)
    (hiff : ∀ r1 ∈ rs, ∀ r2 ∈ rs, (sim r1 r2 = true ↔ g r1 = g r2))
    (hmem : ∀ r ∈ rs, g r < k)
    (hcnt : ∀ i < k, 2 ≤ rs.countP (fun r => decide (g r = i))) :
    (clusterRects sim rs).length = k ∧
    ∀ c ∈ clusterRects sim rs,
      (∀ r ∈ c, r ∈ rs) ∧
      ∃ i < k, (∀ r ∈ c, g r = i) ∧
        c.length = rs.countP (fun r => decide (g r = i)) := by
  obtain ⟨hne, hhom, hpw, hperm⟩ := clusterRects_spec sim g rs hiff
  have hsub : ∀ c ∈ clusterRects sim rs, ∀ r ∈ c, r ∈ rs := by
    intro c hc r hr
    exact hperm.mem_iff.mp (List.mem_flatten.mpr ⟨c, hc, hr⟩)
  have hval : ∀ c ∈ clusterRects sim rs,
      ∃ i < k, (∀ r ∈ c, g r = i) ∧
        c.length = rs.countP (fun r => decide (g r = i)) := by
    intro c hc
    have hcne := hne c hc
    have hhd : c.headI ∈ c := headI_mem_of_ne_nil hcne
    refine ⟨g c.headI, hmem _ (hsub c hc _ hhd), fun r hr => hhom c hc r hr _ hhd, ?_⟩
    rw [← hperm.countP_eq]
    exact (countP_flatten_single g (g c.headI) (clusterRects sim rs) c hc hpw
      (fun r hr => hhom c hc r hr _ hhd) hcne).symm
  refine ⟨?_, fun c hc => ⟨hsub c hc, hval c hc⟩⟩
  -- count clusters through their identities
  have hids_nodup : ((clusterRects sim rs).map (fun c => g c.headI)).Nodup := by
    apply List.pairwise_map.mpr
    apply hpw.imp_of_mem
    intro c d hc hd hR
    exact hR _ (headI_mem_of_ne_nil (hne c hc)) _ (headI_mem_of_ne_nil (hne d hd))
  have hids_set : ((clusterRects sim rs).map (fun c => g c.headI)).toFinset
      = Finset.range k := by
    ext i
    simp only [List.mem_toFinset, Finset.mem_range, List.mem_map]
    constructor
    · rintro ⟨c, hc, rfl⟩
      exact hmem _ (hsub c hc _ (headI_mem_of_ne_nil (hne c hc)))
    · intro hi
      have hpos : 0 < rs.countP (fun r => decide (g r = i)) := by
        have := hcnt i hi
        omega
      obtain ⟨r, hr, hgr⟩ := List.countP_pos_iff.mp hpos
      obtain ⟨c, hc, hrc⟩ := List.mem_flatten.mp (hperm.mem_iff.mpr hr)
      refine ⟨c, hc, ?_⟩
      have h1 := hhom c hc r hrc _ (headI_mem_of_ne_nil (hne c hc))
      simp only [decide_eq_true_eq] at hgr
      omega
  have : ((clusterRects sim rs).map (fun c => g c.headI)).length = k := by
    rw [← List.toFinset_card_of_nodup hids_nodup, hids_set, Finset.card_range]
  simpa using this

theorem avgRect_bounds (c : List Rect) (w h lox hix loy hiy : Nat)
    (hne : c ≠ [])
    (hw : ∀ r ∈ c, r.w = w) (hh : ∀ r ∈ c, r.h = h)
    (hx : ∀ r ∈ c, lox ≤ r.x ∧ r.x ≤ hix)
    (hy : ∀ r ∈ c, loy ≤ r.y ∧ r.y ≤ hiy) :
    (avgRect c).w = w ∧ (avgRect c).h = h ∧
    lox ≤ (avgRect c).x ∧ (avgRect c).x ≤ hix ∧
    loy ≤ (avgRect c).y ∧ (avgRect c).y ≤ hiy := by
  have hn : 0 < c.length := List.length_pos.mpr hne
  obtain ⟨bx1, bx2⟩ := foldl_add_le (fun r => r.x) lox hix c 0 hx
  obtain ⟨by1, by2⟩ := foldl_add_le (fun r => r.y) loy hiy c 0 hy
  obtain ⟨bw1, bw2⟩ :=
    foldl_add_le (fun r => r.w) w w c 0 (fun r hr => by simp [hw r hr])
  obtain ⟨bh1, bh2⟩ :=
    foldl_add_le (fun r => r.h) h h c 0 (fun r hr => by simp [hh r hr])
  obtain ⟨rx1, rx2⟩ := rndDiv_bounds (c.foldl (fun t r => t + r.x) 0) c.length
    lox hix hn (by omega) (by omega)
  obtain ⟨ry1, ry2⟩ := rndDiv_bounds (c.foldl (fun t r => t + r.y) 0) c.length
    loy hiy hn (by omega) (by omega)
  obtain ⟨rw1, rw2⟩ := rndDiv_bounds (c.foldl (fun t r => t + r.w) 0) c.length
    w w hn (by omega) (by omega)
  obtain ⟨rh1, rh2⟩ := rndDiv_bounds (c.foldl (fun t r => t + r.h) 0) c.length
    h h hn (by omega) (by omega)
  refine ⟨?_, ?_, rx1, rx2, ry1, ry2⟩ <;> simp only [avgRect] <;> omega

theorem keepRep_true (gthr en ed : Nat) (reps : List (Rect × Nat))
    (ir : Nat × Rect × Nat) (h1 : gthr < ir.2.2)
    (h2 : ∀ jr ∈ reps.enum, jr.1 ≠ ir.1 → insideExp en ed ir.2.1 jr.2.1 = false) :
    keepRep gthr en ed reps ir = true := by
  simp only [keepRep, Bool.and_eq_true, decide_eq_true_eq, List.all_eq_true]
  refine ⟨h1, fun jr hjr => ?_⟩
  by_cases hne : jr.1 = ir.1
  · simp [hne]
  · simp [h2 jr hjr hne]

theorem groupRectangles_all_pass (gthr en ed : Nat) (rs : List Rect)
    (hpass : ∀ x ∈ ((clusterRects (simRects en ed) rs).map
        (fun c => (avgRect c, c.length))).enum,
      keepRep gthr en ed ((clusterRects (simRects en ed) rs).map
        (fun c => (avgRect c, c.length))) x = true) :
    groupRectangles gthr en ed rs
      = (clusterRects (simRects en ed) rs).map avgRect := by
  simp only [groupRectangles]
  rw [List.filter_eq_self.mpr hpass]
  rw [show (fun (ir : Nat × Rect × Nat) => ir.2.1)
      = (fun (p : Rect × Nat) => p.1) ∘ Prod.snd from rfl]
  rw [← List.map_map, List.enum_map_snd, List.map_map]
  rfl

theorem groupRectangles_spec (g : Rect → Nat) (instX instY : Nat → Nat)
    (k w h : Nat) (rs : List Rect)
    (hwh : ∀ r ∈ rs, r.w = w ∧ r.h = h)
    (hiff : ∀ r1 ∈ rs, ∀ r2 ∈ rs, (simRects 1 5 r1 r2 = true ↔ g r1 = g r2))
    (hmem : ∀ r ∈ rs, g r < k)
    (hreg : ∀ r ∈ rs, instX (g r) ≤ r.x ∧ r.x ≤ instX (g r) + w / 2 ∧
        instY (g r) ≤ r.y ∧ r.y ≤ instY (g r) + h / 2)
    (hcnt : ∀ i < k, 2 ≤ rs.countP (fun r => decide (g r = i)))
    (hsep : ∀ i < k, ∀ j < k, i ≠ j →
      (w / 2 + cvRoundFrac 1 5 w < natDist (instX i) (instX j)) ∨
      (h / 2 + cvRoundFrac 1 5 h < natDist (instY i) (instY j))) :
    (groupRectangles 1 1 5 rs).length = k ∧
    ∀ r ∈ groupRectangles 1 1 5 rs,
      r.w = w ∧ r.h = h ∧
      ∃ i < k, instX i ≤ r.x ∧ r.x ≤ instX i + w / 2 ∧
        instY i ≤ r.y ∧ r.y ≤ instY i + h / 2 := by
  obtain ⟨hlen, hcl⟩ := clusterRects_count (simRects 1 5) g rs k hiff hmem hcnt
  obtain ⟨hne, _, hpw, _⟩ := clusterRects_spec (simRects 1 5) g rs hiff
  -- per-cluster representative facts
  have hfact : ∀ c ∈ clusterRects (simRects 1 5) rs, ∃ i < k,
      (∀ r ∈ c, g r = i) ∧ 2 ≤ c.length ∧
      (avgRect c).w = w ∧ (avgRect c).h = h ∧
      instX i ≤ (avgRect c).x ∧ (avgRect c).x ≤ instX i + w / 2 ∧
      instY i ≤ (avgRect c).y ∧ (avgRect c).y ≤ instY i + h / 2 := by
    intro c hc
    obtain ⟨hsub, i, hik, hgi, hclen⟩ := hcl c hc
    have hcne := hne c hc
    obtain ⟨a1, a2, a3, a4, a5, a6⟩ := avgRect_bounds c w h
      (instX i) (instX i + w / 2) (instY i) (instY i + h / 2) hcne
      (fun r hr => (hwh r (hsub r hr)).1)
      (fun r hr => (hwh r (hsub r hr)).2)
      (fun r hr => by
        have := hreg r (hsub r hr)
        rw [hgi r hr] at this
        exact ⟨this.1, this.2.1⟩)
      (fun r hr => by
        have := hreg r (hsub r hr)
        rw [hgi r hr] at this
        exact ⟨this.2.2.1, this.2.2.2⟩)
    have hclen2 : 2 ≤ c.length := by
      rw [hclen]
      exact hcnt i hik
    exact ⟨i, hik, hgi, hclen2, a1, a2, a3, a4, a5, a6⟩
  -- choose the identity of each cluster
  choose! idx hidx hgidx hlen2 haw hah hax1 hax2 hay1 hay2 using hfact
  -- distinct clusters have distinct identities
  have hdistinct : ∀ a b (ha : a < (clusterRects (simRects 1 5) rs).length)
      (hb : b < (clusterRects (simRects 1 5) rs).length), a ≠ b →
      idx (clusterRects (simRects 1 5) rs)[a]
        ≠ idx (clusterRects (simRects 1 5) rs)[b] := by
    intro a b ha hb hab
    have hma := List.getElem_mem ha
    have hmb := List.getElem_mem hb
    have hha := headI_mem_of_ne_nil (hne _ hma)
    have hhb := headI_mem_of_ne_nil (hne _ hmb)
    have hga := hgidx _ hma _ hha
    have hgb := hgidx _ hmb _ hhb
    have hR : ∀ r1 ∈ (clusterRects (simRects 1 5) rs)[a],
        ∀ r2 ∈ (clusterRects (simRects 1 5) rs)[b], g r1 ≠ g r2 := by
      rcases Nat.lt_or_ge a b with hlt | hge
      · exact List.pairwise_iff_getElem.mp hpw a b ha hb hlt
      · have hlt : b < a := by omega
        intro r1 h1 r2 h2
        exact (List.pairwise_iff_getElem.mp hpw b a hb ha hlt r2 h2 r1 h1).symm
    intro hcon
    exact hR _ hha _ hhb (by rw [hga, hgb, hcon])
  -- every representative passes the final filter
  have hkey : groupRectangles 1 1 5 rs
      = (clusterRects (simRects 1 5) rs).map avgRect := by
    apply groupRectangles_all_pass
    intro x hx
    obtain ⟨a, ha, hxa⟩ := List.mem_iff_getElem.mp hx
    rw [List.getElem_enum] at hxa
    have ha' : a < (clusterRects (simRects 1 5) rs).length := by
      simpa using ha
    have hxval : x = (a, avgRect (clusterRects (simRects 1 5) rs)[a],
        ((clusterRects (simRects 1 5) rs)[a]).length) := by
      rw [← hxa]
      congr 1
      rw [List.getElem_map]
    subst hxval
    apply keepRep_true
    · exact hlen2 _ (List.getElem_mem ha')
    · intro jr hjr hne'
      obtain ⟨b, hb, hjb⟩ := List.mem_iff_getElem.mp hjr
      rw [List.getElem_enum] at hjb
      have hb' : b < (clusterRects (simRects 1 5) rs).length := by
        simpa using hb
      have hjval : jr = (b, avgRect (clusterRects (simRects 1 5) rs)[b],
          ((clusterRects (simRects 1 5) rs)[b]).length) := by
        rw [← hjb]
        congr 1
        rw [List.getElem_map]
      subst hjval
      have hba : b ≠ a := by simpa using hne'
      have hmca := List.getElem_mem ha'
      have hmcb := List.getElem_mem hb'
      have hia := hidx _ hmca
      have hib := hidx _ hmcb
      have hii : idx (clusterRects (simRects 1 5) rs)[b]
          ≠ idx (clusterRects (simRects 1 5) rs)[a] :=
        hdistinct b a hb' ha' hba
      rcases hsep _ hia _ hib (Ne.symm hii) with hbr | hbr
      · rw [Bool.eq_false_iff]
        intro hcon
        simp only [insideExp, Bool.and_eq_true, decide_eq_true_eq] at hcon
        rw [haw _ hmca, haw _ hmcb] at hcon
        have b1 := hax1 _ hmca
        have b2 := hax2 _ hmca
        have b3 := hax1 _ hmcb
        have b4 := hax2 _ hmcb
        rw [natDist_eq] at hbr
        omega
      · rw [Bool.eq_false_iff]
        intro hcon
        simp only [insideExp, Bool.and_eq_true, decide_eq_true_eq] at hcon
        rw [hah _ hmca, hah _ hmcb] at hcon
        have b1 := hay1 _ hmca
        have b2 := hay2 _ hmca
        have b3 := hay1 _ hmcb
        have b4 := hay2 _ hmcb
        rw [natDist_eq] at hbr
        omega
  rw [hkey]
  constructor
  · rw [List.length_map]
    exact hlen
  · intro r hr
    obtain ⟨c, hc, rfl⟩ := List.mem_map.mp hr
    exact ⟨haw c hc, hah c hc, idx c, hidx c hc, hax1 c hc, hax2 c hc,
      hay1 c hc, hay2 c hc⟩

/-!
## Claims
-/

theorem main_loop_all_fail (dry : Bool) : ∀ fuel n,
    main_loop dry env_all_fail n fuel =
      ⟨(List.replicate fuel [Event.shot false, Event.shot false]).flatten,
        n + 2 * fuel, .ceiling, fuel⟩ := by
  intro fuel
  induction fuel with
  | zero => intro n; simp [main_loop]
  | succ f ih =>
    intro n
    simp only [main_loop, env_all_fail, ih (n + 2)]
    simp [List.replicate_succ]
    omega

theorem foldl_maxLoc_spec (res : Nat → Nat → ℚ) : ∀ (l : List Pt) (a : ℚ × Pt),
    res a.2.2 a.2.1 = a.1 →
    (res ((l.foldl (fun acc p =>
        if acc.1 < res p.2 p.1 then (res p.2 p.1, p) else acc) a)).2.2
      ((l.foldl (fun acc p =>
        if acc.1 < res p.2 p.1 then (res p.2 p.1, p) else acc) a)).2.1
      = (l.foldl (fun acc p =>
        if acc.1 < res p.2 p.1 then (res p.2 p.1, p) else acc) a).1) ∧
    ((l.foldl (fun acc p =>
        if acc.1 < res p.2 p.1 then (res p.2 p.1, p) else acc) a).2 = a.2 ∨
      (l.foldl (fun acc p =>
        if acc.1 < res p.2 p.1 then (res p.2 p.1, p) else acc) a).2 ∈ l) ∧
    a.1 ≤ (l.foldl (fun acc p =>
        if acc.1 < res p.2 p.1 then (res p.2 p.1, p) else acc) a).1 ∧
    ∀ p ∈ l, res p.2 p.1 ≤ (l.foldl (fun acc p =>
        if acc.1 < res p.2 p.1 then (res p.2 p.1, p) else acc) a).1 := by
  intro l
  induction l with
  | nil => intro a ha; simpa using ha
  | cons p l ih =>
    intro a ha
    by_cases hlt : a.1 < res p.2 p.1
    · obtain ⟨i1, i2, i3, i4⟩ := ih (res p.2 p.1, p) rfl
      refine ⟨by simpa [hlt] using i1, ?_, ?_, ?_⟩
      · rcases i2 with h | h
        · right
          simp only [List.foldl_cons, if_pos hlt]
          rw [h]
          exact List.mem_cons_self _ _
        · right
          simp only [List.foldl_cons, if_pos hlt]
          exact List.mem_cons_of_mem _ h
      · simp only [List.foldl_cons, if_pos hlt]
        exact le_trans (le_of_lt hlt) i3
      · intro q hq
        rcases List.mem_cons.mp hq with rfl | hq
        · simpa [hlt] using i3
        · simpa [hlt] using i4 q hq
    · obtain ⟨i1, i2, i3, i4⟩ := ih a ha
      refine ⟨by simpa [hlt] using i1, ?_, by simpa [hlt] using i3, ?_⟩
      · rcases i2 with h | h
        · left; simpa [hlt] using h
        · right; right; simpa [hlt] using h
      · intro q hq
        rcases List.mem_cons.mp hq with rfl | hq
        · simp only [List.foldl_cons, if_neg hlt]
          exact le_trans (not_lt.mp hlt) i3
        · simpa [hlt] using i4 q hq

theorem origin_mem_gridPts (rh rw : Nat) (hh : 0 < rh) (hw : 0 < rw) :
    ((0, 0) : Pt) ∈ gridPts rh rw := by
  simp only [gridPts, List.mem_flatMap, List.mem_range, List.mem_map]
  exact ⟨0, hh, 0, hw, rfl⟩

/-- C1: over any scripted run, dry-run mode issues no tap whose purpose is
downloading (neither mid-entry nor at end-of-entry), while the gestures it
does issue are exactly the navigation gestures of the corresponding
non-dry run, in the same order: advance-to-entry taps, close-photo taps,
back taps, per-picture scrolls, fallback scrolls, and per-entry scrolls
all occur unchanged. -/
theorem claim_dry_run_gestures (env : Env) :
    (main_run true env).trace.countP Event.isDownloadTap = 0 ∧
    (main_run true env).trace.filter Event.isGesture
      = (main_run false env).trace.filter Event.isNavGesture := by
  obtain ⟨_, h2, h3⟩ := main_loop_dry_wet env 10000 0
  exact ⟨h2, h3⟩

/-- C5: `find_element` computes the row-major first maximum of the score
matrix; the value found is the global maximum over the grid; if the
threshold is at or below it, the returned point is the centre of that
highest-confidence location, otherwise the result is `None`. -/
theorem claim_find_element_max (mt : MatchFn) (store : Store)
    (tp sp : String) (thr : ℚ) (tmpl img : Image)
    (ht : store tp = .image tmpl) (hs : store sp = .image img) :
    (maxLoc (mt img tmpl) (img.h - tmpl.h + 1) (img.w - tmpl.w + 1)).2
      ∈ gridPts (img.h - tmpl.h + 1) (img.w - tmpl.w + 1) ∧
    mt img tmpl
        (maxLoc (mt img tmpl) (img.h - tmpl.h + 1) (img.w - tmpl.w + 1)).2.2
        (maxLoc (mt img tmpl) (img.h - tmpl.h + 1) (img.w - tmpl.w + 1)).2.1
      = (maxLoc (mt img tmpl) (img.h - tmpl.h + 1) (img.w - tmpl.w + 1)).1 ∧
    (∀ p ∈ gridPts (img.h - tmpl.h + 1) (img.w - tmpl.w + 1),
      mt img tmpl p.2 p.1
        ≤ (maxLoc (mt img tmpl) (img.h - tmpl.h + 1) (img.w - tmpl.w + 1)).1) ∧
    (thr ≤ (maxLoc (mt img tmpl) (img.h - tmpl.h + 1) (img.w - tmpl.w + 1)).1 →
      find_element mt store tp sp thr
        = some
          ((maxLoc (mt img tmpl) (img.h - tmpl.h + 1) (img.w - tmpl.w + 1)).2.1
              + tmpl.w / 2,
            (maxLoc (mt img tmpl) (img.h - tmpl.h + 1) (img.w - tmpl.w + 1)).2.2
              + tmpl.h / 2)) ∧
    ((maxLoc (mt img tmpl) (img.h - tmpl.h + 1) (img.w - tmpl.w + 1)).1 < thr →
      find_element mt store tp sp thr = none) := by
  obtain ⟨m1, m2, _, m4⟩ :=
    foldl_maxLoc_spec (mt img tmpl)
      (gridPts (img.h - tmpl.h + 1) (img.w - tmpl.w + 1))
      (mt img tmpl 0 0, (0, 0)) rfl
  refine ⟨?_, m1, m4, ?_, ?_⟩
  · rcases m2 with h | h
    · rw [maxLoc, h]
      exact origin_mem_gridPts _ _ (Nat.succ_pos _) (Nat.succ_pos _)
    · exact h
  · intro hth
    simp only [find_element, ht, hs, if_pos hth]
  · intro hth
    simp only [find_element, ht, hs, if_neg (not_le.mpr hth)]

theorem claim_find_element_max_witness :
    store_demo "t.png" = .image tmpl10 ∧
    mkRat 4 5 ≤ (maxLoc (mt_single screen_small tmpl10)
      (screen_small.h - tmpl10.h + 1) (screen_small.w - tmpl10.w + 1)).1 ∧
    find_element mt_single store_demo "t.png" "b.png" (mkRat 4 5)
      = some (5, 5) :=
  ⟨rfl, by decide,
    ((claim_find_element_max mt_single store_demo "t.png" "b.png" (mkRat 4 5)
        tmpl10 screen_small rfl rfl).2.2.2.1 (by decide)).trans (by decide)⟩

/-- C6 (amended): a capture failure is surfaced immediately and the
observation makes exactly one capture attempt.  In the `__main__`
list-walker a failed screenshot only skips that iteration's queries and
the loop continues to its 10000-iteration ceiling when failures persist;
but in the per-entry loop and in the recovery pass, the first capture
failure terminates that loop immediately with a single failed attempt,
rather than continuing to the loop's own ceiling. -/
theorem claim_capture_failure_semantics (dry : Bool) (env : Env) (n fuel : Nat)
    (h : (env n).shotOk = false) :
    entry_loop dry env n (fuel + 1)
      = ⟨[Event.shot false], n + 1, .captureFailed, 1⟩ ∧
    recovery_loop env n (fuel + 1) = ([Event.shot false], n + 1) ∧
    (main_run dry env_all_fail).status = .ceiling ∧
    (main_run dry env_all_fail).iters = 10000 := by
  have hm := main_loop_all_fail dry 10000 0
  refine ⟨by simp [entry_loop, h], by simp [recovery_loop, h], ?_, ?_⟩
  · show (main_loop dry env_all_fail 0 10000).status = .ceiling
    rw [hm]
  · show (main_loop dry env_all_fail 0 10000).iters = 10000
    rw [hm]

theorem claim_capture_failure_semantics_witness :
    (env_all_fail 0).shotOk = false ∧
    (entry_loop false env_all_fail 0 (0 + 1)
        = ⟨[Event.shot false], 1, .captureFailed, 1⟩ ∧
      recovery_loop env_all_fail 0 (0 + 1) = ([Event.shot false], 1) ∧
      (main_run false env_all_fail).status = .ceiling ∧
      (main_run false env_all_fail).iters = 10000) :=
  ⟨rfl, claim_capture_failure_semantics false env_all_fail 0 0 rfl⟩

/-- C7 (amended): a missing template file is detected at call time, during
the loops, and treated as "glyph absent": `find_element` returns `None`
and `find_all_elements` returns `[]`, and the run proceeds; there is no
startup-time template check. -/
theorem claim_missing_template_runtime (mt : MatchFn) (store : Store)
    (tp sp : String) (thr : ℚ) (h : store tp = .absent) :
    find_element mt store tp sp thr = none ∧
    find_all_elements mt store tp sp thr = [] := by
  constructor <;> simp only [find_element, find_all_elements, h]

theorem claim_missing_template_runtime_witness :
    missing_store "download.png" = .absent ∧
    (find_element mtZero missing_store "download.png" "screen.png" (mkRat 4 5)
        = none ∧
      find_all_elements mtZero missing_store "download.png" "screen.png"
        (mkRat 4 5) = []) :=
  ⟨rfl, claim_missing_template_runtime mtZero missing_store "download.png"
    "screen.png" (mkRat 4 5) rfl⟩

/-- C7 counterexample: with every template file missing (and screenshots
succeeding), the program still runs its loops — the first list-walker
iteration takes two screenshots and only then stops on the runtime
"No right arrows found" branch — so the absence of template files is
detected during the perception/navigation loops, not before them. -/
theorem counterexample_missing_template_startup :
    find_element mtZero missing_store "right.png" "screen.png" (mkRat 4 5)
      = none ∧
    find_all_elements mtZero missing_store "right.png" "screen.png" (mkRat 4 5)
      = [] ∧
    (main_run false env_missing_templates).trace
      = [Event.shot true, Event.shot true] ∧
    (main_run false env_missing_templates).status = .noProgress ∧
    (main_run false env_missing_templates).iters = 1 := by
  decide

/-- C8: matching is deterministic over the stored frame: two calls of
`find_element` / `find_all_elements` with the same matcher, template
path, screenshot path and threshold return identical results whenever
the two stored files are unchanged between the calls, regardless of any
difference in the rest of the working directory. -/
theorem claim_observation_deterministic (mt : MatchFn) (s1 s2 : Store)
    (tp sp : String) (thr : ℚ)
    (ht : s1 tp = s2 tp) (hs : s1 sp = s2 sp) :
    find_element mt s1 tp sp thr = find_element mt s2 tp sp thr ∧
    find_all_elements mt s1 tp sp thr = find_all_elements mt s2 tp sp thr := by
  constructor <;> simp only [find_element, find_all_elements, ht, hs]

theorem claim_observation_deterministic_witness :
    store_demo "t.png" = store_demo2 "t.png" ∧
    (find_element mt_pair store_demo "t.png" "s.png" (mkRat 4 5)
        = find_element mt_pair store_demo2 "t.png" "s.png" (mkRat 4 5) ∧
      find_all_elements mt_pair store_demo "t.png" "s.png" (mkRat 4 5)
        = find_all_elements mt_pair store_demo2 "t.png" "s.png" (mkRat 4 5)) :=
  ⟨rfl, claim_observation_deterministic mt_pair store_demo store_demo2
    "t.png" "s.png" (mkRat 4 5) rfl rfl⟩

/-- C4 (amended): take a frame containing exactly `k` well-separated
template instances, where each instance contributes at least two
above-threshold candidate positions, all candidates of an instance lie in
its top-left quadrant and are mutually similar in the `groupRectangles`
sense, and distinct instances are separated (horizontally or vertically)
beyond both the similarity tolerance and the nesting margin.  Then
`find_all_elements` returns exactly `k` centres, each lying within the
bounding box of its instance.  (The unamended claim — one candidate per
instance suffices — is false: `cv2.groupRectangles(…, 1, 0.2)` discards
clusters with at most one member; see the counterexample.) -/
theorem claim_find_all_k_instances (mt : MatchFn) (store : Store)
    (tp sp : String) (thr : ℚ) (tmpl img : Image) (k : Nat)
    (f : Pt → Nat) (instX instY : Nat → Nat)
    (ht : store tp = .image tmpl) (hs : store sp = .image img)
    (hmem : ∀ p ∈ wherePoints (mt img tmpl) (img.h - tmpl.h + 1)
        (img.w - tmpl.w + 1) thr, f p < k)
    (hreg : ∀ p ∈ wherePoints (mt img tmpl) (img.h - tmpl.h + 1)
        (img.w - tmpl.w + 1) thr,
      instX (f p) ≤ p.1 ∧ p.1 ≤ instX (f p) + tmpl.w / 2 ∧
        instY (f p) ≤ p.2 ∧ p.2 ≤ instY (f p) + tmpl.h / 2)
    (hsim : ∀ p ∈ wherePoints (mt img tmpl) (img.h - tmpl.h + 1)
        (img.w - tmpl.w + 1) thr,
      ∀ q ∈ wherePoints (mt img tmpl) (img.h - tmpl.h + 1)
        (img.w - tmpl.w + 1) thr, f p = f q →
      simRects 1 5 ⟨p.1, p.2, tmpl.w, tmpl.h⟩ ⟨q.1, q.2, tmpl.w, tmpl.h⟩ = true)
    (hcnt : ∀ i < k, 2 ≤ (wherePoints (mt img tmpl) (img.h - tmpl.h + 1)
        (img.w - tmpl.w + 1) thr).countP (fun p => decide (f p = i)))
    (hsep : ∀ i < k, ∀ j < k, i ≠ j →
      (tmpl.w + tmpl.h + 10 * (tmpl.w / 2) < 10 * natDist (instX i) (instX j) ∧
        tmpl.w / 2 + cvRoundFrac 1 5 tmpl.w < natDist (instX i) (instX j)) ∨
      (tmpl.w + tmpl.h + 10 * (tmpl.h / 2) < 10 * natDist (instY i) (instY j) ∧
        tmpl.h / 2 + cvRoundFrac 1 5 tmpl.h < natDist (instY i) (instY j))) :
    (find_all_elements mt store tp sp thr).length = k ∧
    ∀ c ∈ find_all_elements mt store tp sp thr,
      ∃ i < k, instX i ≤ c.1 ∧ c.1 ≤ instX i + tmpl.w ∧
        instY i ≤ c.2 ∧ c.2 ≤ instY i + tmpl.h := by
  by_cases hc : wherePoints (mt img tmpl) (img.h - tmpl.h + 1)
      (img.w - tmpl.w + 1) thr = []
  · have hk : k = 0 := by
      by_contra hk0
      have := hcnt 0 (Nat.pos_of_ne_zero hk0)
      rw [hc] at this
      simp at this
    simp [find_all_elements, ht, hs, hc, hk]
  · have hspec := groupRectangles_spec (fun r => f (r.x, r.y)) instX instY
      k tmpl.w tmpl.h
      ((wherePoints (mt img tmpl) (img.h - tmpl.h + 1)
          (img.w - tmpl.w + 1) thr).map
        (fun p => Rect.mk p.1 p.2 tmpl.w tmpl.h))
      (by
        intro r hr
        obtain ⟨p, hp, rfl⟩ := List.mem_map.mp hr
        exact ⟨rfl, rfl⟩)
      (by
        intro r1 h1 r2 h2
        obtain ⟨p, hp, rfl⟩ := List.mem_map.mp h1
        obtain ⟨q, hq, rfl⟩ := List.mem_map.mp h2
        constructor
        · intro hsimtrue
          by_contra hfne
          have hik := hmem p hp
          have hjk := hmem q hq
          obtain ⟨rp1, rp2, rp3, rp4⟩ := hreg p hp
          obtain ⟨rq1, rq2, rq3, rq4⟩ := hreg q hq
          rcases hsep _ hik _ hjk hfne with ⟨hbr, _⟩ | ⟨hbr, _⟩
          · simp only [simRects, Bool.and_eq_true, decide_eq_true_eq,
              Nat.min_self] at hsimtrue
            have c1 := hsimtrue.1.1.1
            rw [natDist_eq] at c1 hbr
            omega
          · simp only [simRects, Bool.and_eq_true, decide_eq_true_eq,
              Nat.min_self] at hsimtrue
            have c2 := hsimtrue.1.1.2
            rw [natDist_eq] at c2 hbr
            omega
        · intro hfe
          exact hsim p hp q hq hfe)
      (by
        intro r hr
        obtain ⟨p, hp, rfl⟩ := List.mem_map.mp hr
        exact hmem p hp)
      (by
        intro r hr
        obtain ⟨p, hp, rfl⟩ := List.mem_map.mp hr
        exact hreg p hp)
      (by
        intro i hik
        rw [List.countP_map]
        exact hcnt i hik)
      (by
        intro i hik j hjk hij
        rcases hsep i hik j hjk hij with ⟨_, hbr⟩ | ⟨_, hbr⟩
        · exact Or.inl hbr
        · exact Or.inr hbr)
    obtain ⟨hglen, hgmem⟩ := hspec
    constructor
    · simp only [find_all_elements, ht, hs, if_neg hc, List.length_map]
      exact hglen
    · intro c hcmem
      simp only [find_all_elements, ht, hs, if_neg hc, List.mem_map] at hcmem
      obtain ⟨r, hr, rfl⟩ := hcmem
      obtain ⟨hrw, hrh, i, hik, b1, b2, b3, b4⟩ := hgmem r hr
      refine ⟨i, hik, ?_, ?_, ?_, ?_⟩ <;> rw [hrw, hrh] <;> omega

/-- C4 counterexample: a frame with exactly one template instance, whose
single location scores a perfect 1 (the only above-threshold point of the
whole score grid), yet `find_all_elements` returns no matches at all —
`cv2.groupRectangles(rects, 1, 0.2)` discards clusters with at most one
member, so the claimed "exactly k matches" fails at k = 1. -/
theorem counterexample_single_instance_dropped :
    wherePoints (mt_single screen_small tmpl10) (screen_small.h - tmpl10.h + 1)
      (screen_small.w - tmpl10.w + 1) (mkRat 4 5) = [(0, 0)] ∧
    find_all_elements mt_single store_demo "t.png" "b.png" (mkRat 4 5) = [] := by
  constructor
  · decide
  · decide

theorem claim_find_all_k_instances_witness :
    store_demo "t.png" = .image tmpl10 ∧
    ((find_all_elements mt_pair store_demo "t.png" "s.png" (mkRat 4 5)).length
        = 2 ∧
      ∀ c ∈ find_all_elements mt_pair store_demo "t.png" "s.png" (mkRat 4 5),
        ∃ i < 2, [0, 19].getD i 0 ≤ c.1 ∧ c.1 ≤ [0, 19].getD i 0 + tmpl10.w ∧
          0 ≤ c.2 ∧ c.2 ≤ 0 + tmpl10.h) :=
  ⟨rfl,
    claim_find_all_k_instances mt_pair store_demo "t.png" "s.png" (mkRat 4 5)
      tmpl10 screen_wide 2
      (fun p => if p.1 < 10 then 0 else 1) (fun i => [0, 19].getD i 0) (fun _ => 0)
      rfl rfl (by decide) (by decide) (by decide) (by decide) (by decide)⟩

/-- C6 counterexample: with every capture failing, the per-entry loop of
`download_all_photos_from_entry` terminates after its very first
iteration via the capture-failure break — it does not continue through
subsequent iterations to its 100-iteration ceiling. -/
theorem counterexample_capture_failure_entry_loop :
    (entry_loop false env_all_fail 0 100).iters = 1 ∧
    (entry_loop false env_all_fail 0 100).status = .captureFailed ∧
    ¬ ((entry_loop false env_all_fail 0 100).iters = 100 ∧
        (entry_loop false env_all_fail 0 100).status = .abortedCeiling) := by
  decide

/-- C2: if every observation in a run yields no match for any glyph (all
screenshots succeed, all queries empty), the per-entry loop of
`download_all_photos_from_entry` stops by exhausting its `range(100)`
ceiling — 100 iterations, one perception cycle (screenshot) each — and
the `__main__` list-walker stops after its first iteration with the
"No right arrows found" break. -/
theorem claim_all_no_match_termination (dry : Bool) (env : Env)
    (h : ∀ m, (env m).allNone) :
    (entry_loop dry env 0 100).status = .abortedCeiling ∧
    (entry_loop dry env 0 100).iters = 100 ∧
    (entry_loop dry env 0 100).trace.countP Event.isShot = 100 ∧
    (main_run dry env).status = .noProgress ∧
    (main_run dry env).iters = 1 := by
  have he := entry_loop_all_none dry env h 100 0
  have hm := main_loop_all_none dry env h 9999 0
  refine ⟨by rw [he], by rw [he], by rw [he]; decide, ?_, ?_⟩
  · show (main_loop dry env 0 10000).status = .noProgress
    rw [show (10000 : Nat) = 9999 + 1 from rfl, hm]
  · show (main_loop dry env 0 10000).iters = 1
    rw [show (10000 : Nat) = 9999 + 1 from rfl, hm]

theorem claim_all_no_match_termination_witness :
    (∀ m, (env_all_none m).allNone) ∧
    ((entry_loop false env_all_none 0 100).status = .abortedCeiling ∧
     (entry_loop false env_all_none 0 100).iters = 100 ∧
     (entry_loop false env_all_none 0 100).trace.countP Event.isShot = 100 ∧
     (main_run false env_all_none).status = .noProgress ∧
     (main_run false env_all_none).iters = 1) :=
  ⟨fun _ => ⟨rfl, rfl, rfl, rfl, rfl, rfl, rfl⟩,
    claim_all_no_match_termination false env_all_none
      (fun _ => ⟨rfl, rfl, rfl, rfl, rfl, rfl, rfl⟩)⟩

/-- C3: in an iteration where the close-photo glyph is absent and the
end-of-entry (`add_your_comment.png`) glyph is found, the per-entry loop
collects all visible download matches, taps each exactly once with a
sleep after each tap (suppressed entirely in dry-run mode), and
terminates the loop at once in the success terminal state, with no
further scrolling or tapping in the entry. -/
theorem claim_entry_end_downloads_all (dry : Bool) (env : Env) (n fuel : Nat) (p : Pt)
    (hs : (env n).shotOk = true) (hc : (env n).closepic = none)
    (ha : (env n).addComment = some p) :
    entry_loop dry env n (fuel + 1) =
      ⟨Event.shot true ::
          (if dry then [] else
            (env n).download.flatMap (fun c => [Event.tapDownload c, Event.slp 1])),
        n + 1, .endReached, 1⟩ := by
  simp [entry_loop, hs, hc, ha]

theorem claim_entry_end_downloads_all_witness :
    entry_loop false env_entry_end 0 (99 + 1) =
      ⟨[Event.shot true, Event.tapDownload (120, 300), Event.slp 1,
          Event.tapDownload (120, 900), Event.slp 1],
        1, .endReached, 1⟩ :=
  (claim_entry_end_downloads_all false env_entry_end 0 99 (540, 2000)
    rfl rfl rfl).trans rfl

/-- C9: in an iteration where neither the close-photo glyph nor the
end-of-entry glyph is found: with at least one download match visible,
only the first is tapped (suppressed in dry-run mode) and a small
downward scroll anchored at that match's vertical position
(`scroll(500, y, 500, 495, 1000)`) is issued; with none visible, the
larger fallback scroll `scroll(500, 2200, 500, 495, 1000)` is issued;
in both cases the loop continues with the remaining budget. -/
theorem claim_mid_entry_behaviour (dry : Bool) (env : Env) (n fuel : Nat)
    (hs : (env n).shotOk = true) (hc : (env n).closepic = none)
    (ha : (env n).addComment = none) :
    entry_loop dry env n (fuel + 1) =
      (let r := entry_loop dry env (n + 1) fuel
       match (env n).download with
       | [] => ⟨Event.shot true :: Event.swipe 500 2200 500 495 1000 :: r.trace,
           r.next, r.status, r.iters + 1⟩
       | c :: _ => ⟨Event.shot true ::
             ((if dry then [] else [Event.tapDownload c, Event.slp 1]) ++
               scroll_down_one_picture c :: r.trace),
           r.next, r.status, r.iters + 1⟩) := by
  cases hd : (env n).download <;> simp [entry_loop, hs, hc, ha, hd]

theorem claim_mid_entry_behaviour_witness :
    entry_loop false env_mid_entry 0 (0 + 1) =
      ⟨[Event.shot true, Event.tapDownload (120, 300), Event.slp 1,
          Event.swipe 500 300 500 495 1000],
        1, .abortedCeiling, 1⟩ :=
  (claim_mid_entry_behaviour false env_mid_entry 0 0 rfl rfl rfl).trans rfl

/-- C10: the post-entry recovery pass (`for _ in range(5)` with
`back.png`) makes at most 5 screenshot attempts, taps the back glyph at
most once, exits immediately after the iteration that taps it (only the
settle sleep follows the back tap), and emits nothing after a failed
screenshot. -/
theorem claim_recovery_back_once (env : Env) (n : Nat) :
    (recovery_loop env n 5).1.countP Event.isBackTap ≤ 1 ∧
    (recovery_loop env n 5).1.countP Event.isShot ≤ 5 ∧
    (((recovery_loop env n 5).1.dropWhile (fun e => !e.isBackTap)).drop 1).all
      Event.isSlp = true ∧
    (((recovery_loop env n 5).1.dropWhile (fun e => !e.isFailedShot)).drop 1)
      = [] :=
  recovery_loop_spec env 5 n

end Adb
